import Mathlib

/-!
A shallow embedding of the scene lifecycle manager (`scene/__init__.py`) and of
the light-transport training loop (`train_test.py`) of the repository
`real-time-neural-light-transport`, together with proofs of the specified
properties.  External collaborators (dataset readers, the hash-grid decoder,
spherical-harmonic coefficient derivation, `random.shuffle`, the radiance
model) are abstracted as oracle parameters; the control flow and the data flow
of the two source files are translated directly, with source line references
in the doc comments.
-/

namespace RTNLT

/-- `RESOLUTION = (100, 100)` (train_test.py line 42). -/
def RESOLUTION : Nat × Nat := (100, 100)

/-- `get_grid` (train_test.py lines 44-55): the row-major pixel grid with
`pixels[y * width + x] = (x, y)`; the two nested loops fill, for each `y` in
order, the block of entries `(0, y), ..., (width - 1, y)`. -/
def get_grid (resolution : Nat × Nat) : List (Nat × Nat) :=
  (List.range resolution.2).flatMap (fun y => (List.range resolution.1).map (fun x => (x, y)))

/-- `compute_diffuse_colors` (train_test.py lines 57-63): evaluate the external
hash-grid `decoder` at every pixel, view the result as per-pixel `3 × 81`
transport coefficients, multiply elementwise by the broadcast light
coefficients, and sum over the coefficient dimension, yielding one scalar per
pixel and per channel.  No clamping is applied. -/
def compute_diffuse_colors (decoder : Nat × Nat → Fin 3 → Fin 81 → ℚ)
    (light_coeffs : Fin 81 → ℚ) (pixels : List (Nat × Nat)) : List (Fin 3 → ℚ) :=
  pixels.map (fun p => fun c => ∑ k : Fin 81, decoder p c k * light_coeffs k)

/-- `diffuse_colors.view(height, width, 3).permute(2, 0, 1)`
(train_test.py line 124 and line 254): the channel-major image whose entry
`(c, y, x)` is channel `c` of the diffuse color of grid entry `y * width + x`. -/
def diffuse_image (decoder : Nat × Nat → Fin 3 → Fin 81 → ℚ)
    (light_coeffs : Fin 81 → ℚ) (width height : Nat) : Fin 3 → Nat → Nat → ℚ :=
  fun c y x =>
    (compute_diffuse_colors decoder light_coeffs (get_grid (width, height))).getD
      (y * width + x) (fun _ => 0) c

/-- The branches of the dataset dispatch in `Scene.__init__`
(scene/__init__.py lines 66-88). -/
inductive SceneBranch where
  | colmap
  | blender
  | openIllumination
deriving DecidableEq

/-- Dataset dispatch (scene/__init__.py lines 66-88), evaluated in source
order: a `sparse` marker directory selects the Colmap reader, else a
`transforms_train.json` manifest selects the Blender reader, else the explicit
`data_type == "OpenIllumination"` selects the OpenIllumination reader, else
`assert False, "Could not recognize scene type!"` (line 88). -/
def sceneDispatch (hasSparse hasTransforms : Bool) (data_type : String) :
    Except String SceneBranch :=
  if hasSparse then .ok .colmap
  else if hasTransforms then .ok .blender
  else if data_type = "OpenIllumination" then .ok .openIllumination
  else .error "Could not recognize scene type!"

/-- The uniform intermediate description returned by every dataset reader
(`scene_info`): ordered raw train and test views of type `V`, the
normalization radius, the canonical point cloud of type `P`, and an optional
light rig of type `L`. -/
structure SceneInfo (V P L : Type) where
  train_cameras : List V
  test_cameras : List V
  radius : ℚ
  point_cloud : P
  light_info : Option L

/-- The radiance-model population branch executed at the end of
`Scene.__init__` (scene/__init__.py lines 124-141): exactly one of the three
constructors describes the single `create_from_pcd` / `load_ply` call made. -/
inductive GaussInit (P : Type) where
  | fromLoadPts (pts_file : String) (extent : ℚ)
  | loadPly (iteration : Int)
  | fromPcd (pcd : P) (extent : ℚ)
deriving DecidableEq

/-- A materialized camera record (produced by the external Camera
Materializer): the fields of it that `train_test.py` reads are the light
direction pair and the ground-truth image. -/
structure Camera (S Img : Type) where
  light_phi : S
  light_theta : S
  original_image : Img
deriving DecidableEq

instance {S Img : Type} [Inhabited S] [Inhabited Img] : Inhabited (Camera S Img) :=
  ⟨{ light_phi := default, light_theta := default, original_image := default }⟩

/-- The state of a constructed `Scene` (scene/__init__.py lines 27-155),
together with the externally visible write effects of its construction:
`wrote_input_ply` records whether lines 95-96 ran, and `cameras_json` the
serialized content written to `cameras.json` by lines 97-109 (if written). -/
structure Scene (V C P J L : Type) where
  model_path : String
  loaded_iter : Option Int
  light_info : Option L
  wrote_input_ply : Bool
  cameras_json : Option (List J)
  cameras_extent : ℚ
  train_cameras : List (ℚ × List C)
  test_cameras : List (ℚ × List C)
  gauss_init : GaussInit P

/-- Lines 111-113 of scene/__init__.py: `random.shuffle` permutes a sequence
in place when the `shuffle` flag is set; the random permutation drawn is the
oracle `σ`. -/
def shuffled {V : Type} (shuffle : Bool) (σ : List V → List V) (l : List V) : List V :=
  if shuffle then σ l else l

/-- `Scene.__init__` (scene/__init__.py lines 31-141) applied to the reader
result `info`.  `σtrain` and `σtest` are the `random.shuffle` oracles,
`max_found` the result of the external `searchForMaxIteration` (consulted only
when `load_iteration = -1`), and `cameraToJSON` the external `camera_to_JSON`.
`loadCam` is modelled from the spec: `utils.camera_utils.cameraList_from_camInfos`
(not part of this excerpt) applies the Camera Materializer to every raw view
at the given resolution scale, order-preserving, producing a fresh list.
Construction order follows the source: the `cameras.json` content is built
from the unshuffled `camlist` (lines 94-109) before the shuffle (lines
111-113), and per-scale materialization (lines 118-122) reads the shuffled
sequences. -/
def buildScene {V C P J L : Type} (info : SceneInfo V P L)
    (model_path : String)
    (load_iteration : Option Int) (max_found : Int)
    (shuffle : Bool) (σtrain σtest : List V → List V)
    (resolution_scales : List ℚ)
    (loadCam : ℚ → V → C)
    (cameraToJSON : Nat → V → J)
    (load_pts : Option String) : Scene V C P J L :=
  let loaded_iter : Option Int :=
    load_iteration.map (fun li => if li = -1 then max_found else li)
  let camlist : List V :=
    (if info.train_cameras.isEmpty then [] else info.train_cameras) ++
      (if info.test_cameras.isEmpty then [] else info.test_cameras)
  let str := shuffled shuffle σtrain info.train_cameras
  let ste := shuffled shuffle σtest info.test_cameras
  { model_path := model_path
    loaded_iter := loaded_iter
    light_info := info.light_info
    wrote_input_ply := loaded_iter.isNone
    cameras_json :=
      if loaded_iter.isNone then
        some ((camlist.enum).map (fun p => cameraToJSON p.1 p.2))
      else none
    cameras_extent := info.radius
    train_cameras := resolution_scales.map (fun s => (s, str.map (loadCam s)))
    test_cameras := resolution_scales.map (fun s => (s, ste.map (loadCam s)))
    gauss_init :=
      match load_pts with
      | some f => .fromLoadPts f info.radius
      | none =>
        match loaded_iter with
        | some it => .loadPly it
        | none => .fromPcd info.point_cloud info.radius }

/-- `Scene.getTrainCameras` (scene/__init__.py lines 147-148): look up the
camera list for a resolution scale. -/
def Scene.getTrainCameras {V C P J L : Type} (s : Scene V C P J L) (scale : ℚ) : List C :=
  ((s.train_cameras.find? (fun p => decide (p.1 = scale))).map Prod.snd).getD []

/-- `Scene.getTestCameras` (scene/__init__.py lines 150-151). -/
def Scene.getTestCameras {V C P J L : Type} (s : Scene V C P J L) (scale : ℚ) : List C :=
  ((s.test_cameras.find? (fun p => decide (p.1 = scale))).map Prod.snd).getD []

/-- `Scene.save` (scene/__init__.py lines 143-145): the path under which the
radiance-model snapshot keyed by `iteration` is persisted. -/
def Scene.savePath {V C P J L : Type} (s : Scene V C P J L) (iteration : Nat) : String :=
  s.model_path ++ "/point_cloud/iteration_" ++ toString iteration ++ "/point_cloud.ply"

/-- Scene construction including the dataset dispatch: the reader selected by
`sceneDispatch` produces the intermediate description (`infoOf` gives each
external reader's result), and the scene is then built from it; an
unrecognized layout aborts construction with the line-88 error. -/
def sceneConstructE {V C P J L : Type} (hasSparse hasTransforms : Bool) (data_type : String)
    (infoOf : SceneBranch → SceneInfo V P L)
    (model_path : String) (load_iteration : Option Int) (max_found : Int)
    (shuffle : Bool) (σtrain σtest : List V → List V) (resolution_scales : List ℚ)
    (loadCam : ℚ → V → C) (cameraToJSON : Nat → V → J) (load_pts : Option String) :
    Except String (Scene V C P J L) :=
  (sceneDispatch hasSparse hasTransforms data_type).map
    (fun b => buildScene (infoOf b) model_path load_iteration max_found shuffle σtrain σtest
      resolution_scales loadCam cameraToJSON load_pts)

/-- The combined photometric loss value at one iteration, as far as the
divergence check of train_test.py line 149 (`torch.isinf(loss) or
torch.isnan(loss)`) is concerned: a finite rational, infinity, or
not-a-number.  The loss is produced by external tensor code, so the
per-iteration loss value is an input oracle of the loop model. -/
inductive LossVal where
  | finite (q : ℚ)
  | inf
  | nan
deriving DecidableEq

/-- `torch.isinf(loss) or torch.isnan(loss)` (train_test.py line 149). -/
def LossVal.divergent : LossVal → Bool
  | .finite _ => false
  | .inf => true
  | .nan => true

/-- The observable actions of one iteration of the training loop body
(train_test.py lines 96-171). -/
structure IterEvent (α : Type) where
  /-- the loop counter `iteration` -/
  iter : Nat
  /-- `gaussians.oneupSHdegree()` was requested (lines 103-104) -/
  shUp : Bool
  /-- the camera popped from the viewpoint stack (lines 107-109) -/
  cam : α
  /-- the inf/nan check fired and the loop broke (lines 149-152) -/
  diverged : Bool
  /-- `optimizer.step()` ran (lines 166-167) -/
  stepped : Bool
  /-- `optimizer.zero_grad(set_to_none=True)` ran (line 168) -/
  zeroed : Bool
deriving DecidableEq

/-- The training loop `for iteration in range(first_iter, opt.iterations + 1)`
(train_test.py lines 96-171), run from iteration `i` with `fuel` iterations
remaining (`fuel = T + 1 - i` at the top call, `T = opt.iterations`).
Per iteration: the SH-degree escalation request fires iff `iteration % 1000 == 0`
(lines 103-104); the viewpoint stack is refilled with a copy of the full train
camera list only when empty (lines 107-108) and one camera is popped at the
`randint(0, len(stack) - 1)` index (line 109), the random draw being the
oracle `pick` (reduced modulo the stack length so that every admissible index
is a possible draw); the loss is computed and `backward` run (lines 144-146);
if the loss is infinite or not-a-number the loop prints the iteration and
breaks (lines 148-152) with no optimizer step; otherwise `optimizer.step()`
and `optimizer.zero_grad` run exactly when `iteration < opt.iterations`
(lines 166-168). -/
def runIters {α : Type} [Inhabited α] (cams : List α) (loss : Nat → LossVal)
    (pick : Nat → Nat) (T : Nat) : Nat → Nat → List α → List (IterEvent α)
  | 0, _, _ => []
  | fuel + 1, i, stack =>
    let stack1 := if stack.isEmpty then cams else stack
    let j := pick i % stack1.length
    let ev : IterEvent α :=
      { iter := i
        shUp := decide (i % 1000 = 0)
        cam := stack1.getD j default
        diverged := (loss i).divergent
        stepped := !(loss i).divergent && decide (i < T)
        zeroed := !(loss i).divergent && decide (i < T) }
    if (loss i).divergent then [ev]
    else ev :: runIters cams loss pick T fuel (i + 1) (stack1.eraseIdx j)

/-- One rendered output of `render_set` (train_test.py lines 240-262): the
light coefficients are derived from the view's light direction by the external
`get_sh_coeffs` at order 9 (oracle `shc`), the diffuse image is produced by
the evaluator on the `RESOLUTION` grid, and the external float gamma
correction `pow(., 1/2.2)` (oracle `gammaFn`) is applied before the image is
written.  The radiance model is not an input: `render_set` reads only the
decoder state and the views. -/
def renderOne {S Img Img2 : Type} (decoder : Nat × Nat → Fin 3 → Fin 81 → ℚ)
    (shc : S × S → Fin 81 → ℚ)
    (gammaFn : (Fin 3 → Nat → Nat → ℚ) → Img2) (view : Camera S Img) : Img2 :=
  gammaFn (diffuse_image decoder (shc (view.light_phi, view.light_theta))
    RESOLUTION.1 RESOLUTION.2)

/-- `render_set` (train_test.py lines 240-262): render every view in order.
(The gamma-corrected ground-truth images are written alongside, one per view,
from `view.original_image`; they carry no additional information for the
properties below.) -/
def render_set {S Img Img2 : Type} (decoder : Nat × Nat → Fin 3 → Fin 81 → ℚ)
    (shc : S × S → Fin 81 → ℚ) (gammaFn : (Fin 3 → Nat → Nat → ℚ) → Img2)
    (views : List (Camera S Img)) : List Img2 :=
  views.map (renderOne decoder shc gammaFn)

/-- The observable outcome of one call of `training`
(train_test.py lines 65-179). -/
structure TrainRun (S Img Img2 : Type) where
  /-- the per-iteration events of the optimization loop -/
  events : List (IterEvent (Camera S Img))
  /-- the iterations at which `scene.save` was invoked -/
  save_calls : List Nat
  /-- the rendered outputs of `render_set(..., "train", ...)` (line 178) -/
  final_train : List Img2
  /-- the rendered outputs of `render_set(..., "test", ...)` (line 179) -/
  final_test : List Img2

/-- `training` (train_test.py lines 65-179).  A first `Scene` is constructed
with the default `shuffle=True` (line 72); when `debug` is false the
optimization loop runs from `first_iter + 1` (line 89) to `opt.iterations`;
afterwards a second scene is constructed with `shuffle=False` and no
checkpoint iteration (lines 173-176) and every train and test camera of it is
rendered through the diffuse pipeline (lines 178-179).  The body of the loop
(lines 96-171) contains no call to `scene.save`, and the `saving_iterations`
argument is never read, so `save_calls` is empty.  `gaussians` is the radiance
model object; no output of `training` reads it.

Both `Scene(...)` constructions in the source (line 72 and line 174) pass the
keyword `extension`, which `Scene.__init__` (scene/__init__.py lines 31-45)
does not accept; in the host language each such call raises `TypeError`
before the constructor body runs.  This definition therefore denotes the loop
and render code of `training` conditionally on those constructions
succeeding; the keyword check itself is modelled separately by
`callRejectsKeywords` / `finalizeBlock` / `trainingChecked` below, under
which every invocation faults at the line-72 construction. -/
def training {V P L S Img Img2 J G : Type} [Inhabited S] [Inhabited Img]
    (dataset_info : SceneInfo V P L) (gaussians : G)
    (model_path : String)
    (σtrain σtest : List V → List V)
    (loadCam : ℚ → V → Camera S Img)
    (cameraToJSON : Nat → V → J)
    (decoder : Nat × Nat → Fin 3 → Fin 81 → ℚ)
    (shc : S × S → Fin 81 → ℚ)
    (gammaFn : (Fin 3 → Nat → Nat → ℚ) → Img2)
    (loss : Nat → LossVal) (pick : Nat → Nat)
    (iterations : Nat) (first_iter : Nat)
    (saving_iterations : List Nat)
    (debug : Bool) : TrainRun S Img Img2 :=
  let scene : Scene V (Camera S Img) P J L :=
    buildScene dataset_info model_path none 0 true σtrain σtest [1] loadCam cameraToJSON none
  let events :=
    if debug then []
    else runIters (scene.getTrainCameras 1) loss pick iterations
      (iterations - first_iter) (first_iter + 1) []
  let new_scene : Scene V (Camera S Img) P J L :=
    buildScene dataset_info model_path none 0 false σtrain σtest [1] loadCam cameraToJSON none
  { events := events
    save_calls := []
    final_train := render_set decoder shc gammaFn (new_scene.getTrainCameras 1)
    final_test := render_set decoder shc gammaFn (new_scene.getTestCameras 1) }

/-- The parameter names of `Scene.__init__` (scene/__init__.py lines 31-45);
any of them may be bound by a keyword argument at a call site, and no other
keyword is accepted. -/
def sceneInitKeywords : List String :=
  ["args", "gaussians", "load_iteration", "shuffle", "resolution_scale",
   "resolution_scales", "model_path", "source_path", "data_type", "num_pts",
   "radius", "white_bg", "light_type", "load_pts"]

/-- Host-language call semantics: a Python call raises `TypeError` before the
callee body runs iff some keyword argument is not among the callee's
parameter names. -/
def callRejectsKeywords (accepted passed : List String) : Bool :=
  passed.any (fun k => !(accepted.contains k))

/-- The keyword arguments of `Scene(dataset, gaussians, extension=extension)`
at train_test.py line 72. -/
def sceneCallKw_line72 : List String := ["extension"]

/-- The keyword arguments of the finalizing `Scene` construction:
`Scene(dataset, gaussians, shuffle=False, extension=extension)` at
train_test.py line 174 when `debug` is false,
`Scene(dataset, gaussians, shuffle=False)` at line 176 when `debug` is true. -/
def sceneCallKw_finalizing (debug : Bool) : List String :=
  if debug then ["shuffle"] else ["shuffle", "extension"]

/-- The Finalizing block of `training` (train_test.py lines 173-179) with
host-language semantics made explicit: the `Scene(...)` call of the selected
branch is subjected to the keyword check, and `render_set` (lines 178-179)
reads the name `pixels`, which is assigned only at line 94 inside the
`if not debug:` block and is therefore unassigned when `debug` is true.
(In the `debug` branch the line-176 construction itself is well-formed and
would run before the line-178 `NameError` fires.) -/
def finalizeBlock {V P L S Img Img2 J : Type}
    (info : SceneInfo V P L) (mp : String) (σt σs : List V → List V)
    (loadCam : ℚ → V → Camera S Img) (c2j : Nat → V → J)
    (decoder : Nat × Nat → Fin 3 → Fin 81 → ℚ) (shc : S × S → Fin 81 → ℚ)
    (gammaFn : (Fin 3 → Nat → Nat → ℚ) → Img2) (debug : Bool) :
    Except String (List Img2 × List Img2) :=
  if callRejectsKeywords sceneInitKeywords (sceneCallKw_finalizing debug) then
    .error "TypeError: Scene.__init__ got an unexpected keyword argument"
  else if debug then
    .error "NameError: name pixels is not defined"
  else
    let new_scene := buildScene info mp none 0 false σt σs [1] loadCam c2j none
    .ok (render_set decoder shc gammaFn (new_scene.getTrainCameras 1),
      render_set decoder shc gammaFn (new_scene.getTestCameras 1))

/-- `training` (train_test.py lines 65-179) with the host-language keyword
check of each `Scene(...)` construction made explicit.  The line-72 call
`Scene(dataset, gaussians, extension=extension)` passes the keyword
`extension`, which `Scene.__init__` does not accept, so every invocation
raises `TypeError` there, before the optimization loop; were that call
admitted, the finalizing construction of a non-debug run (line 174) would
raise the same `TypeError`, and a debug run would instead reach the line-178
`NameError` on the unassigned `pixels`. -/
def trainingChecked {V P L S Img Img2 J G : Type} [Inhabited S] [Inhabited Img]
    (dataset_info : SceneInfo V P L) (gaussians : G) (model_path : String)
    (σtrain σtest : List V → List V) (loadCam : ℚ → V → Camera S Img)
    (cameraToJSON : Nat → V → J) (decoder : Nat × Nat → Fin 3 → Fin 81 → ℚ)
    (shc : S × S → Fin 81 → ℚ) (gammaFn : (Fin 3 → Nat → Nat → ℚ) → Img2)
    (loss : Nat → LossVal) (pick : Nat → Nat) (iterations first_iter : Nat)
    (saving_iterations : List Nat) (debug : Bool) :
    Except String (TrainRun S Img Img2) :=
  if callRejectsKeywords sceneInitKeywords sceneCallKw_line72 then
    .error "TypeError: Scene.__init__ got an unexpected keyword argument"
  else
    match finalizeBlock dataset_info model_path σtrain σtest loadCam cameraToJSON
        decoder shc gammaFn debug with
    | .error e => .error e
    | .ok _ =>
      .ok (training dataset_info gaussians model_path σtrain σtest loadCam
        cameraToJSON decoder shc gammaFn loss pick iterations first_iter
        saving_iterations debug)

/-- The "every view exactly once in any N consecutive steps" reading of the
view-sampling property: every window of `cams.length` consecutive samples of
the trace contains each training view exactly once. -/
def windowEachOnce {α : Type} [DecidableEq α] (trace cams : List α) : Prop :=
  ∀ s, s + cams.length ≤ trace.length →
    ∀ c ∈ cams, ((trace.drop s).take cams.length).count c = 1

/-! ## Concrete oracle instances used by witness and counterexample theorems -/

/-- A one-train-camera, one-test-camera dataset reader result. -/
def Winfo : SceneInfo Nat Nat Nat :=
  { train_cameras := [7], test_cameras := [8], radius := 0, point_cloud := 3,
    light_info := none }

/-- A two-train-camera dataset reader result. -/
def Winfo2 : SceneInfo Nat Nat Nat :=
  { train_cameras := [7, 8], test_cameras := [], radius := 0, point_cloud := 3,
    light_info := none }

/-- A trivial shuffle draw: the identity permutation. -/
def Wid : List Nat → List Nat := fun l => l

/-- A concrete camera materializer. -/
def WloadCam : ℚ → Nat → Camera Nat Nat :=
  fun _ v => { light_phi := v, light_theta := v, original_image := v }

/-- A concrete camera serializer. -/
def Wc2j : Nat → Nat → Nat := fun i v => 100 * i + v

/-- A concrete decoder state. -/
def Wdec : Nat × Nat → Fin 3 → Fin 81 → ℚ := fun _ _ _ => 0

/-- A concrete light-coefficient oracle. -/
def Wshc : Nat × Nat → Fin 81 → ℚ := fun _ _ => 0

/-- A concrete gamma-correction oracle. -/
def Wgam : (Fin 3 → Nat → Nat → ℚ) → Nat := fun _ => 0

/-- A loss oracle that is finite at every iteration. -/
def Wfin : Nat → LossVal := fun _ => LossVal.finite 0

/-- A loss oracle that is not-a-number exactly at iteration `k`. -/
def WnanAt (k : Nat) : Nat → LossVal :=
  fun i => if i = k then LossVal.nan else LossVal.finite 0

/-- A `randint` oracle that always draws index 0. -/
def Wpick0 : Nat → Nat := fun _ => 0

/-- A `randint` oracle drawing index 1 at step 1 and 0 afterwards. -/
def Wpick5 : Nat → Nat := fun i => if i = 1 then 1 else 0

/-! ## Lemmas about the pixel grid and the evaluator -/

lemma get_grid_succ (w h : Nat) :
    get_grid (w, h + 1) = get_grid (w, h) ++ (List.range w).map (fun x => (x, h)) := by
  simp [get_grid, List.range_succ]

lemma get_grid_length (w h : Nat) : (get_grid (w, h)).length = h * w := by
  induction h with
  | zero => simp [get_grid]
  | succ n ih =>
    rw [get_grid_succ, List.length_append, ih, List.length_map, List.length_range]
    ring

lemma getD_map_range {β : Type} (w : Nat) (f : Nat → β) {x : Nat} (hx : x < w) (d : β) :
    ((List.range w).map f).getD x d = f x := by
  rw [List.getD_eq_getElem?_getD, List.getElem?_map, List.getElem?_range hx]
  rfl

lemma get_grid_getD {w h x y : Nat} (hx : x < w) (hy : y < h) (d : Nat × Nat) :
    (get_grid (w, h)).getD (y * w + x) d = (x, y) := by
  induction h with
  | zero => omega
  | succ n ih =>
    rw [get_grid_succ]
    rcases Nat.lt_or_ge y n with hyn | hyn
    · rw [List.getD_append _ _ _ _ ?_]
      · exact ih hyn
      · rw [get_grid_length]
        calc y * w + x < y * w + w := by omega
          _ = (y + 1) * w := by ring
          _ ≤ n * w := Nat.mul_le_mul_right w (by omega)
    · have hyE : y = n := by omega
      subst hyE
      rw [List.getD_append_right _ _ _ _ (by rw [get_grid_length]; omega)]
      rw [get_grid_length, Nat.add_sub_cancel_left]
      exact getD_map_range w _ hx d

lemma compute_diffuse_colors_getD (decoder : Nat × Nat → Fin 3 → Fin 81 → ℚ)
    (light_coeffs : Fin 81 → ℚ) (pixels : List (Nat × Nat)) {n : Nat}
    (hn : n < pixels.length) (d : Fin 3 → ℚ) :
    (compute_diffuse_colors decoder light_coeffs pixels).getD n d =
      fun c => ∑ k : Fin 81, decoder (pixels.getD n (0, 0)) c k * light_coeffs k := by
  rw [compute_diffuse_colors, List.getD_eq_getElem?_getD, List.getElem?_map,
    List.getD_eq_getElem?_getD]
  rcases List.getElem?_eq_getElem hn with h
  rw [h]
  rfl

lemma diffuse_image_eq (decoder : Nat × Nat → Fin 3 → Fin 81 → ℚ)
    (light : Fin 81 → ℚ) {w h x y : Nat} (hx : x < w) (hy : y < h) (c : Fin 3) :
    diffuse_image decoder light w h c y x =
      ∑ k : Fin 81, decoder (x, y) c k * light k := by
  have hn : y * w + x < (get_grid (w, h)).length := by
    rw [get_grid_length]
    calc y * w + x < y * w + w := by omega
      _ = (y + 1) * w := by ring
      _ ≤ h * w := Nat.mul_le_mul_right w (by omega)
  rw [diffuse_image, compute_diffuse_colors_getD _ _ _ hn, get_grid_getD hx hy]

/-! ## Lemmas about the scene lifecycle manager -/

lemma if_isEmpty_eq_self {V : Type} (l : List V) :
    (if l.isEmpty then ([] : List V) else l) = l := by
  cases l <;> simp

lemma buildScene_cameras_json_none {V C P J L : Type} (info : SceneInfo V P L)
    (mp : String) (mf : Int) (sh : Bool) (σt σs : List V → List V)
    (scales : List ℚ) (loadCam : ℚ → V → C) (c2j : Nat → V → J) (lp : Option String) :
    (buildScene info mp none mf sh σt σs scales loadCam c2j lp).cameras_json =
      some (((info.train_cameras ++ info.test_cameras).enum).map (fun p => c2j p.1 p.2)) := by
  simp [buildScene, if_isEmpty_eq_self]

lemma getD_map_lt {α β : Type} (f : α → β) {l : List α} {i : Nat}
    (h : i < l.length) (d : α) (d' : β) : (l.map f).getD i d' = f (l.getD i d) := by
  rw [List.getD_eq_getElem?_getD, List.getElem?_map, List.getElem?_eq_getElem h,
    List.getD_eq_getElem?_getD, List.getElem?_eq_getElem h]
  rfl

/-! ## Lemmas about the training loop -/

lemma runIters_mem_facts {α : Type} [Inhabited α] (cams : List α) (loss : Nat → LossVal)
    (pick : Nat → Nat) (T : Nat) :
    ∀ (fuel i : Nat) (stack : List α), ∀ e ∈ runIters cams loss pick T fuel i stack,
      e.shUp = decide (e.iter % 1000 = 0) ∧
      e.diverged = (loss e.iter).divergent ∧
      e.stepped = (!(loss e.iter).divergent && decide (e.iter < T)) ∧
      e.zeroed = e.stepped := by
  intro fuel
  induction fuel with
  | zero => intro i stack e he; simp [runIters] at he
  | succ n ih =>
    intro i stack e he
    rw [runIters] at he
    by_cases hd : (loss i).divergent = true
    · simp only [hd, if_true, List.mem_singleton] at he
      subst he
      simp [hd]
    · rw [Bool.not_eq_true] at hd
      simp only [hd, Bool.false_eq_true, if_false, List.mem_cons] at he
      rcases he with he | he
      · subst he
        simp [hd]
      · exact ih _ _ e he

lemma runIters_nodiv_iters {α : Type} [Inhabited α] (cams : List α) (loss : Nat → LossVal)
    (pick : Nat → Nat) (T : Nat) :
    ∀ (fuel i : Nat) (stack : List α),
      (∀ j, i ≤ j → j < i + fuel → (loss j).divergent = false) →
      (runIters cams loss pick T fuel i stack).map IterEvent.iter = List.range' i fuel := by
  intro fuel
  induction fuel with
  | zero => intro i stack _; simp [runIters]
  | succ n ih =>
    intro i stack h
    have hi : (loss i).divergent = false := h i le_rfl (by omega)
    rw [runIters]
    simp only [hi, Bool.false_eq_true, if_false, List.map_cons, List.range'_succ]
    rw [ih (i + 1) _ (fun j hj1 hj2 => h j (by omega) (by omega))]

lemma runIters_diverge {α : Type} [Inhabited α] (cams : List α) (loss : Nat → LossVal)
    (pick : Nat → Nat) (T k : Nat) :
    ∀ (fuel i : Nat) (stack : List α), i ≤ k → k < i + fuel →
      (∀ j, i ≤ j → j < k → (loss j).divergent = false) →
      (loss k).divergent = true →
      (runIters cams loss pick T fuel i stack).map IterEvent.iter =
        List.range' i (k + 1 - i) := by
  intro fuel
  induction fuel with
  | zero => intro i stack h1 h2 _ _; exact absurd h2 (by omega)
  | succ n ih =>
    intro i stack hik hk hnd hdk
    rw [runIters]
    by_cases hi : i = k
    · rw [← hi] at hdk
      simp only [hdk, if_true, List.map_singleton]
      rw [← hi]
      have h1 : i + 1 - i = 1 := by omega
      rw [h1, List.range'_succ]
      simp
    · have hloss : (loss i).divergent = false := hnd i le_rfl (by omega)
      simp only [hloss, Bool.false_eq_true, if_false, List.map_cons]
      rw [ih (i + 1) _ (by omega) (by omega) (fun j h1 h2 => hnd j (by omega) h2) hdk]
      have h2 : k + 1 - i = (k - i) + 1 := by omega
      have h3 : k + 1 - (i + 1) = k - i := by omega
      rw [h2, h3, List.range'_succ]

lemma eq_of_mem_of_nodup_map {α β : Type} {f : α → β} :
    ∀ {l : List α}, (l.map f).Nodup →
      ∀ {a b : α}, a ∈ l → b ∈ l → f a = f b → a = b := by
  intro l
  induction l with
  | nil => intro _ a b ha; cases ha
  | cons x t ih =>
    intro h a b ha hb hf
    rw [List.map_cons, List.nodup_cons] at h
    rcases List.mem_cons.mp ha with h1 | h1 <;> rcases List.mem_cons.mp hb with h2 | h2
    · rw [h1, h2]
    · subst h1
      refine absurd ?_ h.1
      rw [hf]
      exact List.mem_map_of_mem f h2
    · subst h2
      refine absurd ?_ h.1
      rw [← hf]
      exact List.mem_map_of_mem f h1
    · exact ih h.2 h1 h2 hf

lemma perm_getD_cons_eraseIdx {α : Type} [Inhabited α] :
    ∀ (l : List α) (j : Nat), j < l.length →
      List.Perm l (l.getD j default :: l.eraseIdx j) := by
  intro l
  induction l with
  | nil => intro j h; simp at h
  | cons a t ih =>
    intro j h
    cases j with
    | zero => simp
    | succ j =>
      have hj : j < t.length := by simpa using h
      rw [List.getD_cons_succ, List.eraseIdx_cons_succ]
      exact (List.Perm.cons a (ih j hj)).trans (List.Perm.swap _ a _)

lemma runIters_pops_span {α : Type} [Inhabited α] (cams : List α) (loss : Nat → LossVal)
    (pick : Nat → Nat) (T : Nat) :
    ∀ (n : Nat) (s : List α) (fuel i : Nat), s.length = n + 1 → n + 1 ≤ fuel →
      (∀ j, i ≤ j → j < i + (n + 1) → (loss j).divergent = false) →
      ∃ l : List α, List.Perm l s ∧
        (runIters cams loss pick T fuel i s).map IterEvent.cam =
          l ++ (runIters cams loss pick T (fuel - (n + 1)) (i + (n + 1)) []).map
            IterEvent.cam := by
  intro n
  induction n with
  | zero =>
    intro s fuel i hs hf hnd
    obtain ⟨f, rfl⟩ : ∃ f, fuel = f + 1 := ⟨fuel - 1, by omega⟩
    obtain ⟨a, rfl⟩ : ∃ a, s = [a] := by
      cases s with
      | nil => simp at hs
      | cons a t =>
        cases t with
        | nil => exact ⟨a, rfl⟩
        | cons b u => simp at hs
    have hnd0 : (loss i).divergent = false := hnd i le_rfl (by omega)
    rw [runIters]
    simp only [List.isEmpty_cons, if_false, List.length_singleton, Nat.mod_one,
      List.getD_cons_zero, List.eraseIdx_cons_zero, hnd0, Bool.false_eq_true,
      List.map_cons]
    exact ⟨[a], List.Perm.refl _, rfl⟩
  | succ n ih =>
    intro s fuel i hs hf hnd
    obtain ⟨f, rfl⟩ : ∃ f, fuel = f + 1 := ⟨fuel - 1, by omega⟩
    have hse : s.isEmpty = false := by cases s <;> simp_all
    have hnd0 : (loss i).divergent = false := hnd i le_rfl (by omega)
    have hjlt : pick i % s.length < s.length := Nat.mod_lt _ (by omega)
    have hs2 : (s.eraseIdx (pick i % s.length)).length = n + 1 := by
      rw [List.length_eraseIdx, if_pos hjlt]
      omega
    obtain ⟨l', hperm', heq'⟩ := ih (s.eraseIdx (pick i % s.length)) f (i + 1) hs2
      (by omega) (fun j h1 h2 => hnd j (by omega) (by omega))
    refine ⟨s.getD (pick i % s.length) default :: l', ?_, ?_⟩
    · exact ((List.Perm.cons _ hperm').trans
        (perm_getD_cons_eraseIdx s _ hjlt).symm)
    · rw [runIters]
      simp only [hse, if_false, hnd0, Bool.false_eq_true, List.map_cons]
      rw [heq']
      have harith1 : f - (n + 1) = f + 1 - (n + 1 + 1) := by omega
      have harith2 : i + 1 + (n + 1) = i + (n + 1 + 1) := by omega
      rw [harith1, harith2]
      rfl

lemma runIters_nil_refill {α : Type} [Inhabited α] (cams : List α) (loss : Nat → LossVal)
    (pick : Nat → Nat) (T fuel i : Nat) :
    runIters cams loss pick T fuel i [] = runIters cams loss pick T fuel i cams := by
  cases fuel with
  | zero => rfl
  | succ n =>
    rw [runIters, runIters]
    simp only [List.isEmpty_nil, if_true, ite_self]

lemma runIters_chunk {α : Type} [Inhabited α] (cams : List α) (loss : Nat → LossVal)
    (pick : Nat → Nat) (T : Nat) (hcne : cams ≠ []) :
    ∀ (m fuel i : Nat),
      (∀ j, i ≤ j → j < i + fuel → (loss j).divergent = false) →
      (m + 1) * cams.length ≤ fuel →
      List.Perm
        ((((runIters cams loss pick T fuel i []).map IterEvent.cam).drop
            (m * cams.length)).take cams.length)
        cams := by
  have hlen : ∃ n, cams.length = n + 1 := by
    cases cams with
    | nil => exact absurd rfl hcne
    | cons a t => exact ⟨t.length, rfl⟩
  obtain ⟨n, hn⟩ := hlen
  intro m
  induction m with
  | zero =>
    intro fuel i hnd hm
    have hfuel : n + 1 ≤ fuel := by
      have h1 : cams.length ≤ fuel := by
        have h0 : (0 + 1) * cams.length = cams.length := by ring
        rwa [h0] at hm
      omega
    rw [runIters_nil_refill]
    obtain ⟨l, hperm, heq⟩ := runIters_pops_span cams loss pick T n cams fuel i hn
      hfuel (fun j h1 h2 => hnd j h1 (by omega))
    rw [heq]
    have hl : l.length = cams.length := hperm.length_eq
    rw [Nat.zero_mul, List.drop_zero, ← hl, List.take_left]
    exact hperm
  | succ m ih =>
    intro fuel i hnd hm
    have hfuel : n + 1 ≤ fuel := by
      have h1 : n + 1 ≤ (m + 1 + 1) * cams.length := by
        rw [hn]
        exact Nat.le_mul_of_pos_left (n + 1) (by omega)
      omega
    rw [runIters_nil_refill]
    obtain ⟨l, hperm, heq⟩ := runIters_pops_span cams loss pick T n cams fuel i hn
      hfuel (fun j h1 h2 => hnd j h1 (by omega))
    rw [heq]
    have hl : l.length = cams.length := hperm.length_eq
    have harith : (m + 1) * cams.length = l.length + m * cams.length := by
      rw [hl]; ring
    rw [harith, List.drop_append]
    have hnd' : ∀ j, i + (n + 1) ≤ j → j < i + (n + 1) + (fuel - (n + 1)) →
        (loss j).divergent = false := by
      intro j h1 h2
      exact hnd j (by omega) (by omega)
    have hm' : (m + 1) * cams.length ≤ fuel - (n + 1) := by
      refine Nat.le_sub_of_add_le ?_
      calc (m + 1) * cams.length + (n + 1)
          = (m + 1) * cams.length + cams.length := by rw [hn]
        _ = (m + 1 + 1) * cams.length := by ring
        _ ≤ fuel := hm
    exact ih (fuel - (n + 1)) (i + (n + 1)) hnd' hm'

/-! ## The claims -/

/-- **C4.** Scene construction evaluates the dataset dispatch rules in fixed
priority order (sparse-reconstruction marker directory, then
synthetic-transform manifest file, then explicit one-light-at-a-time dataset
type), exactly one branch fires for any input, and for a source path and
dataset type matching none of the recognized markers construction fails with
the unrecognized-scene-type error instead of returning a Scene. -/
theorem dispatch_priority_exactly_one_branch {V C P J L : Type}
    (hasSparse hasTransforms : Bool) (dt : String) :
    (hasSparse = true ∨ (hasSparse = false ∧ hasTransforms = true) ∨
      (hasSparse = false ∧ hasTransforms = false ∧ dt = "OpenIllumination") ∨
      (hasSparse = false ∧ hasTransforms = false ∧ dt ≠ "OpenIllumination")) ∧
    (sceneDispatch hasSparse hasTransforms dt = .ok .colmap ↔ hasSparse = true) ∧
    (sceneDispatch hasSparse hasTransforms dt = .ok .blender ↔
      hasSparse = false ∧ hasTransforms = true) ∧
    (sceneDispatch hasSparse hasTransforms dt = .ok .openIllumination ↔
      hasSparse = false ∧ hasTransforms = false ∧ dt = "OpenIllumination") ∧
    (sceneDispatch hasSparse hasTransforms dt =
        .error "Could not recognize scene type!" ↔
      hasSparse = false ∧ hasTransforms = false ∧ dt ≠ "OpenIllumination") ∧
    (∀ (infoOf : SceneBranch → SceneInfo V P L) (mp : String) (li : Option Int)
      (mf : Int) (sh : Bool) (σt σs : List V → List V) (scales : List ℚ)
      (lc : ℚ → V → C) (c2j : Nat → V → J) (lp : Option String),
      sceneConstructE hasSparse hasTransforms dt infoOf mp li mf sh σt σs scales
          lc c2j lp =
        .error "Could not recognize scene type!" ↔
      hasSparse = false ∧ hasTransforms = false ∧ dt ≠ "OpenIllumination") := by
  cases hasSparse <;> cases hasTransforms <;>
    by_cases hdt : dt = "OpenIllumination" <;>
    simp_all [sceneDispatch, sceneConstructE, Except.map]

/-- **C7.** When no checkpoint iteration is supplied, Scene construction
serializes every camera to the camera-metadata file in train-then-test
concatenation order with zero-based identifiers equal to positions in that
concatenation; this happens before any shuffling, so the id-to-view mapping is
independent of the shuffle flag and of the shuffle draws, and with shuffle
disabled the whole construction result is identical across re-runs on the
same dataset. -/
theorem cameras_json_concat_order_shuffle_independent {V C P J L : Type}
    (info : SceneInfo V P L) (mp : String) (mf : Int) (sh : Bool)
    (σt σs : List V → List V) (scales : List ℚ)
    (loadCam : ℚ → V → C) (c2j : Nat → V → J) (lp : Option String) :
    ((buildScene info mp none mf sh σt σs scales loadCam c2j lp).cameras_json =
      some (((info.train_cameras ++ info.test_cameras).enum).map
        (fun p => c2j p.1 p.2))) ∧
    (∀ (sh2 : Bool) (σt2 σs2 : List V → List V),
      (buildScene info mp none mf sh σt σs scales loadCam c2j lp).cameras_json =
        (buildScene info mp none mf sh2 σt2 σs2 scales loadCam c2j lp).cameras_json) ∧
    (∀ (σt1 σs1 σt2 σs2 : List V → List V),
      buildScene info mp none mf false σt1 σs1 scales loadCam c2j lp =
        buildScene info mp none mf false σt2 σs2 scales loadCam c2j lp) := by
  refine ⟨buildScene_cameras_json_none info mp mf sh σt σs scales loadCam c2j lp,
    fun sh2 σt2 σs2 => ?_, fun σt1 σs1 σt2 σs2 => ?_⟩
  · rw [buildScene_cameras_json_none, buildScene_cameras_json_none]
  · simp [buildScene, shuffled]

/-- **C6.** The one-time random shuffle of the train and test sequences
happens before any per-resolution-scale materialization: the `i`-th training
camera at every requested scale is materialized from the same underlying raw
view, the entry of the shuffled train sequence at index `i`; and the
resolution-scale keys of the training camera map and of the testing camera
map coincide (both equal the requested scale list). -/
theorem multires_same_raw_view_and_shared_scales {V C P J L : Type}
    (info : SceneInfo V P L) (mp : String) (li : Option Int) (mf : Int)
    (sh : Bool) (σt σs : List V → List V) (scales : List ℚ)
    (loadCam : ℚ → V → C) (c2j : Nat → V → J) (lp : Option String)
    (dV : V) (dC : C) :
    ((buildScene info mp li mf sh σt σs scales loadCam c2j lp).train_cameras.map
        Prod.fst = scales) ∧
    ((buildScene info mp li mf sh σt σs scales loadCam c2j lp).train_cameras.map
        Prod.fst =
      (buildScene info mp li mf sh σt σs scales loadCam c2j lp).test_cameras.map
        Prod.fst) ∧
    (∀ A ∈ scales, ∀ B ∈ scales, ∀ i : Nat,
      i < (shuffled sh σt info.train_cameras).length →
      ∃ lA lB : List C,
        (A, lA) ∈ (buildScene info mp li mf sh σt σs scales loadCam c2j lp).train_cameras ∧
        (B, lB) ∈ (buildScene info mp li mf sh σt σs scales loadCam c2j lp).train_cameras ∧
        lA.getD i dC = loadCam A ((shuffled sh σt info.train_cameras).getD i dV) ∧
        lB.getD i dC = loadCam B ((shuffled sh σt info.train_cameras).getD i dV)) := by
  refine ⟨?_, ?_, ?_⟩
  · simp [buildScene, List.map_map, Function.comp_def]
  · simp [buildScene, List.map_map, Function.comp_def]
  · intro A hA B hB i hi
    refine ⟨(shuffled sh σt info.train_cameras).map (loadCam A),
      (shuffled sh σt info.train_cameras).map (loadCam B), ?_, ?_, ?_, ?_⟩
    · exact List.mem_map_of_mem
        (fun s => (s, (shuffled sh σt info.train_cameras).map (loadCam s))) hA
    · exact List.mem_map_of_mem
        (fun s => (s, (shuffled sh σt info.train_cameras).map (loadCam s))) hB
    · exact getD_map_lt (loadCam A) hi dV dC
    · exact getD_map_lt (loadCam B) hi dV dC

/-- **C6 witness**: the theorem instantiated at a concrete two-scale, two-view
dataset, index 1. -/
theorem multires_same_raw_view_witness :
    (1 : ℚ) ∈ ([1, 2] : List ℚ) ∧ (2 : ℚ) ∈ ([1, 2] : List ℚ) ∧
    (1 : Nat) < (shuffled true Wid Winfo2.train_cameras).length ∧
    ∃ lA lB : List (Camera Nat Nat),
      ((1 : ℚ), lA) ∈ (buildScene Winfo2 "m" none 0 true Wid Wid [1, 2] WloadCam Wc2j
        none).train_cameras ∧
      ((2 : ℚ), lB) ∈ (buildScene Winfo2 "m" none 0 true Wid Wid [1, 2] WloadCam Wc2j
        none).train_cameras ∧
      lA.getD 1 default = WloadCam 1 ((shuffled true Wid Winfo2.train_cameras).getD 1 0) ∧
      lB.getD 1 default = WloadCam 2 ((shuffled true Wid Winfo2.train_cameras).getD 1 0) :=
  ⟨by decide, by decide, by decide,
    (multires_same_raw_view_and_shared_scales Winfo2 "m" none 0 true Wid Wid [1, 2]
      WloadCam Wc2j none 0 default).2.2 1 (by decide) 2 (by decide) 1 (by decide)⟩

/-- **C9.** The Light-Transport Evaluator: the row-major pixel grid has entry
`y * width + x = (x, y)`; the image value at channel `c`, row `y`, column `x`
is the dot product of that pixel's 81 transport coefficients with the light
coefficients, arranged channel-major; the evaluator is a deterministic
function of the transport state and the light coefficients; and no clamping
is applied — values outside `[0, 1]` are returned as computed. -/
theorem evaluator_dot_product_channel_major_no_clamp :
    (∀ w h x y : Nat, x < w → y < h →
      (get_grid (w, h)).getD (y * w + x) (0, 0) = (x, y)) ∧
    (∀ (decoder : Nat × Nat → Fin 3 → Fin 81 → ℚ) (light : Fin 81 → ℚ)
      (w h x y : Nat) (c : Fin 3), x < w → y < h →
      diffuse_image decoder light w h c y x =
        ∑ k : Fin 81, decoder (x, y) c k * light k) ∧
    (∀ (d1 d2 : Nat × Nat → Fin 3 → Fin 81 → ℚ) (l1 l2 : Fin 81 → ℚ)
      (p1 p2 : List (Nat × Nat)), d1 = d2 → l1 = l2 → p1 = p2 →
      compute_diffuse_colors d1 l1 p1 = compute_diffuse_colors d2 l2 p2) ∧
    (∃ (decoder : Nat × Nat → Fin 3 → Fin 81 → ℚ) (light : Fin 81 → ℚ)
      (w h x y : Nat) (c : Fin 3), x < w ∧ y < h ∧
      diffuse_image decoder light w h c y x < 0) := by
  refine ⟨fun w h x y hx hy => get_grid_getD hx hy _,
    fun decoder light w h x y c hx hy => diffuse_image_eq decoder light hx hy c,
    fun d1 d2 l1 l2 p1 p2 h1 h2 h3 => by rw [h1, h2, h3],
    ⟨fun _ _ _ => -1, fun _ => 1, 1, 1, 0, 0, 0, Nat.one_pos, Nat.one_pos, ?_⟩⟩
  rw [diffuse_image_eq _ _ Nat.one_pos Nat.one_pos]
  simp

/-- **C9 witness**: the evaluator equation at a concrete decoder, light vector
and pixel. -/
theorem evaluator_dot_product_witness :
    (0 : Nat) < 1 ∧
    diffuse_image Wdec (Wshc (0, 0)) 1 1 0 0 0 =
      ∑ k : Fin 81, Wdec (0, 0) 0 k * Wshc (0, 0) k :=
  ⟨Nat.one_pos,
    evaluator_dot_product_channel_major_no_clamp.2.1 Wdec (Wshc (0, 0)) 1 1 0 0 0
      Nat.one_pos Nat.one_pos⟩

/-- **C10** (code_bug): the second, un-shuffled Scene of Finalizing is never
constructed.  In a non-debug run the line-174 call passes the keyword
`extension`, which is not among the parameter names of `Scene.__init__`, so
`TypeError` is raised before the constructor body: the claimed side effects
(re-writing the copied input point cloud and the camera-metadata file) and
the `create_from_pcd` re-initialization do not occur, and no final outputs
are rendered.  In a debug run the line-176 call is well-formed, but line 178
then reads `pixels`, assigned only at line 94 inside the `if not debug:`
block, raising `NameError`.  On every path the checked run ends in an
uncaught error and produces no finalizing outputs (a run in fact already
faults at the line-72 construction, which passes the same keyword). -/
theorem finalizing_construction_never_runs
    {V P L S Img Img2 J G : Type} [Inhabited S] [Inhabited Img]
    (info : SceneInfo V P L) (g : G) (mp : String)
    (σt σs : List V → List V) (loadCam : ℚ → V → Camera S Img)
    (c2j : Nat → V → J) (decoder : Nat × Nat → Fin 3 → Fin 81 → ℚ)
    (shc : S × S → Fin 81 → ℚ) (gammaFn : (Fin 3 → Nat → Nat → ℚ) → Img2)
    (loss : Nat → LossVal) (pick : Nat → Nat)
    (T fi : Nat) (sIts : List Nat) :
    "shuffle" ∈ sceneInitKeywords ∧
    "extension" ∉ sceneInitKeywords ∧
    callRejectsKeywords sceneInitKeywords (sceneCallKw_finalizing false) = true ∧
    callRejectsKeywords sceneInitKeywords (sceneCallKw_finalizing true) = false ∧
    finalizeBlock info mp σt σs loadCam c2j decoder shc gammaFn false =
      .error "TypeError: Scene.__init__ got an unexpected keyword argument" ∧
    finalizeBlock info mp σt σs loadCam c2j decoder shc gammaFn true =
      .error "NameError: name pixels is not defined" ∧
    (∀ dbg : Bool, ∃ msg : String,
      trainingChecked info g mp σt σs loadCam c2j decoder shc gammaFn loss pick T
        fi sIts dbg = .error msg) := by
  refine ⟨by decide, by decide, by decide, by decide, rfl, rfl, fun dbg => ?_⟩
  exact ⟨"TypeError: Scene.__init__ got an unexpected keyword argument", rfl⟩

/-- **C1** (code_bug): the claim says that on an infinite/NaN loss at
iteration `k` the run logs `k`, stops, and proceeds to Finalizing -- the
final render of all train and test cameras -- without raising an uncaught
fault.  The loop-local part does hold of the loop code (the line-149 check
breaks before any optimizer step, as the approved loop theorems show), but
the run as a whole cannot exhibit it: both `Scene(...)` constructions of
`training` (train_test.py lines 72 and 174) pass the keyword `extension`,
which `Scene.__init__` (scene/__init__.py lines 31-45) does not accept, so
the host language raises an uncaught `TypeError` before the constructor body
runs and the finalizing renders are never produced.  Even under the claim's
own hypotheses -- a divergent loss at `k` -- the checked run evaluates to
that `TypeError`. -/
theorem divergence_scenario_hits_type_error
    {V P L S Img Img2 J G : Type} [Inhabited S] [Inhabited Img]
    (info : SceneInfo V P L) (g : G) (mp : String)
    (σt σs : List V → List V) (loadCam : ℚ → V → Camera S Img)
    (c2j : Nat → V → J) (decoder : Nat × Nat → Fin 3 → Fin 81 → ℚ)
    (shc : S × S → Fin 81 → ℚ) (gammaFn : (Fin 3 → Nat → Nat → ℚ) → Img2)
    (loss : Nat → LossVal) (pick : Nat → Nat)
    (T fi k : Nat) (sIts : List Nat)
    (hk1 : fi + 1 ≤ k) (hk2 : k ≤ T)
    (hnd : ∀ j, fi + 1 ≤ j → j < k → (loss j).divergent = false)
    (hdk : (loss k).divergent = true) :
    "extension" ∉ sceneInitKeywords ∧
    callRejectsKeywords sceneInitKeywords sceneCallKw_line72 = true ∧
    trainingChecked info g mp σt σs loadCam c2j decoder shc gammaFn loss pick T fi
        sIts false =
      .error "TypeError: Scene.__init__ got an unexpected keyword argument" :=
  ⟨by decide, by decide, rfl⟩

/-- **C1 witness**: the claim's scenario instantiated -- loss not-a-number at
iteration 1 of a horizon-2 run -- still ends in the constructor `TypeError`. -/
theorem divergence_scenario_witness :
    (WnanAt 1 1).divergent = true ∧
    trainingChecked Winfo 0 "m" Wid Wid WloadCam Wc2j Wdec Wshc Wgam (WnanAt 1)
        Wpick0 2 0 [] false =
      .error "TypeError: Scene.__init__ got an unexpected keyword argument" :=
  ⟨by decide,
    (divergence_scenario_hits_type_error Winfo 0 "m" Wid Wid WloadCam Wc2j Wdec Wshc
      Wgam (WnanAt 1) Wpick0 2 0 1 [] (by omega) (by omega)
      (fun j h1 h2 => absurd h2 (by omega)) (by decide)).2.2⟩

/-- **C2 counterexample**: a run with `saving_iterations = [1]` and horizon 1:
iteration 1 is reached (it is in the event trace), `1` is in the supplied
save-iteration set, yet no `scene.save` call is made for it — the loop body
(train_test.py lines 96-171) contains no call to `scene.save` and never reads
`saving_iterations`. -/
theorem checkpoint_persist_counterexample :
    1 ∈ ([1] : List Nat) ∧
    (training Winfo 0 "m" Wid Wid WloadCam Wc2j Wdec Wshc Wgam Wfin Wpick0 1 0 [1]
      false).events.map IterEvent.iter = [1] ∧
    1 ∉ (training Winfo 0 "m" Wid Wid WloadCam Wc2j Wdec Wshc Wgam Wfin Wpick0 1 0
      [1] false).save_calls :=
  ⟨by decide, by decide, by decide⟩

/-- **C2 amended**: the training loop accepts the caller-specified set of
checkpoint/save iterations but never invokes the Scene Lifecycle Manager's
save operation: the set of iterations at which a snapshot is persisted is
empty, for every run. -/
theorem training_never_calls_save
    {V P L S Img Img2 J G : Type} [Inhabited S] [Inhabited Img]
    (info : SceneInfo V P L) (g : G) (mp : String)
    (σt σs : List V → List V) (loadCam : ℚ → V → Camera S Img)
    (c2j : Nat → V → J) (decoder : Nat × Nat → Fin 3 → Fin 81 → ℚ)
    (shc : S × S → Fin 81 → ℚ) (gammaFn : (Fin 3 → Nat → Nat → ℚ) → Img2)
    (loss : Nat → LossVal) (pick : Nat → Nat)
    (T fi : Nat) (sIts : List Nat) (dbg : Bool) :
    (training info g mp σt σs loadCam c2j decoder shc gammaFn loss pick T fi sIts
      dbg).save_calls = [] := rfl

/-- **C3 counterexample**: a non-debug run with horizon `T = 1`: iteration 1
is a Stepping iteration in `[resume + 1, T]`, its loss is finite (the
divergence flag is false), yet no optimizer step and no gradient clearing
happen at it, because the source guards both with `iteration < opt.iterations`
(train_test.py line 166), which is false at the horizon itself. -/
theorem step_at_horizon_counterexample :
    (training Winfo 0 "m" Wid Wid WloadCam Wc2j Wdec Wshc Wgam Wfin Wpick0 1 0 []
      false).events.map (fun e => (e.iter, e.diverged, e.stepped, e.zeroed)) =
      [(1, false, false, false)] := by decide

/-- **C3 amended**: for every Stepping iteration `i` of a non-debug,
non-diverging run, exactly one event carries `i`, and the optimizer step and
gradient clearing happen at it exactly when `i` is strictly below the horizon
`T`; in particular one step with gradient clearing is applied at every
iteration below `T`, and none at `T` itself. -/
theorem one_step_per_iteration_below_horizon
    {V P L S Img Img2 J G : Type} [Inhabited S] [Inhabited Img]
    (info : SceneInfo V P L) (g : G) (mp : String)
    (σt σs : List V → List V) (loadCam : ℚ → V → Camera S Img)
    (c2j : Nat → V → J) (decoder : Nat × Nat → Fin 3 → Fin 81 → ℚ)
    (shc : S × S → Fin 81 → ℚ) (gammaFn : (Fin 3 → Nat → Nat → ℚ) → Img2)
    (loss : Nat → LossVal) (pick : Nat → Nat)
    (T fi i : Nat) (sIts : List Nat)
    (r : TrainRun S Img Img2)
    (hr : r = training info g mp σt σs loadCam c2j decoder shc gammaFn loss pick T
      fi sIts false)
    (hi1 : fi + 1 ≤ i) (hi2 : i ≤ T)
    (hnd : ∀ j, fi + 1 ≤ j → j ≤ T → (loss j).divergent = false) :
    ∃ e ∈ r.events, e.iter = i ∧ e.stepped = decide (i < T) ∧
      e.zeroed = decide (i < T) ∧ ∀ e2 ∈ r.events, e2.iter = i → e2 = e := by
  subst hr
  have hev : (training info g mp σt σs loadCam c2j decoder shc gammaFn loss pick T
      fi sIts false).events =
        runIters ((buildScene info mp none 0 true σt σs [1] loadCam c2j
          none).getTrainCameras 1) loss pick T (T - fi) (fi + 1) [] := rfl
  have hmap := runIters_nodiv_iters
    ((buildScene info mp none 0 true σt σs [1] loadCam c2j none).getTrainCameras 1)
    loss pick T (T - fi) (fi + 1) []
    (fun j h1 h2 => hnd j h1 (by omega))
  have himem : i ∈ (training info g mp σt σs loadCam c2j decoder shc gammaFn loss
      pick T fi sIts false).events.map IterEvent.iter := by
    rw [hev, hmap, List.mem_range']
    exact ⟨i - (fi + 1), by omega, by omega⟩
  obtain ⟨e, he, hei⟩ := List.mem_map.mp himem
  have hfacts := runIters_mem_facts _ loss pick T _ _ _ e (hev ▸ he)
  have hstep : e.stepped = decide (i < T) := by
    rw [hfacts.2.2.1, hei, hnd i hi1 hi2]
    rfl
  have hnodup : ((training info g mp σt σs loadCam c2j decoder shc gammaFn loss pick
      T fi sIts false).events.map IterEvent.iter).Nodup := by
    rw [hev, hmap]
    exact List.nodup_range' _ _
  refine ⟨e, he, hei, hstep, by rw [hfacts.2.2.2, hstep], fun e2 he2 hei2 => ?_⟩
  exact eq_of_mem_of_nodup_map hnodup he2 he (by rw [hei, hei2])

/-- **C3 witness**: in a horizon-2 run with finite losses, iteration 1 gets
exactly one optimizer step with gradient clearing. -/
theorem one_step_below_horizon_witness :
    ∃ e ∈ (training Winfo 0 "m" Wid Wid WloadCam Wc2j Wdec Wshc Wgam Wfin Wpick0 2 0
      [] false).events, e.iter = 1 ∧ e.stepped = decide (1 < 2) ∧
      e.zeroed = decide (1 < 2) ∧
      ∀ e2 ∈ (training Winfo 0 "m" Wid Wid WloadCam Wc2j Wdec Wshc Wgam Wfin Wpick0
        2 0 [] false).events, e2.iter = 1 → e2 = e :=
  one_step_per_iteration_below_horizon Winfo 0 "m" Wid Wid WloadCam Wc2j Wdec Wshc
    Wgam Wfin Wpick0 2 0 1 [] _ rfl (by omega) (by omega) (fun j h1 h2 => rfl)

/-- **C8.** In a non-debug, non-diverging run from iteration 1 to horizon `T`,
the loop covers exactly the iterations `1, ..., T`, and a spherical-harmonic
degree-escalation request is issued at an iteration exactly when that
iteration is a multiple of 1000 (train_test.py lines 102-104). -/
theorem sh_escalation_iff_multiple_of_1000
    {V P L S Img Img2 J G : Type} [Inhabited S] [Inhabited Img]
    (info : SceneInfo V P L) (g : G) (mp : String)
    (σt σs : List V → List V) (loadCam : ℚ → V → Camera S Img)
    (c2j : Nat → V → J) (decoder : Nat × Nat → Fin 3 → Fin 81 → ℚ)
    (shc : S × S → Fin 81 → ℚ) (gammaFn : (Fin 3 → Nat → Nat → ℚ) → Img2)
    (loss : Nat → LossVal) (pick : Nat → Nat)
    (T : Nat) (sIts : List Nat)
    (r : TrainRun S Img Img2)
    (hr : r = training info g mp σt σs loadCam c2j decoder shc gammaFn loss pick T 0
      sIts false)
    (hnd : ∀ j, 1 ≤ j → j ≤ T → (loss j).divergent = false) :
    r.events.map IterEvent.iter = List.range' 1 T ∧
    ∀ e ∈ r.events, (e.shUp = true ↔ e.iter % 1000 = 0) := by
  subst hr
  have hev : (training info g mp σt σs loadCam c2j decoder shc gammaFn loss pick T 0
      sIts false).events =
        runIters ((buildScene info mp none 0 true σt σs [1] loadCam c2j
          none).getTrainCameras 1) loss pick T (T - 0) (0 + 1) [] := rfl
  have hmap := runIters_nodiv_iters
    ((buildScene info mp none 0 true σt σs [1] loadCam c2j none).getTrainCameras 1)
    loss pick T (T - 0) (0 + 1) []
    (fun j h1 h2 => hnd j h1 (by omega))
  constructor
  · rw [hev, hmap]
    norm_num
  · intro e he
    have hfacts := runIters_mem_facts _ loss pick T _ _ _ e (hev ▸ he)
    rw [hfacts.1]
    exact decide_eq_true_iff
/-- **C8 witness**: the escalation theorem at a concrete one-iteration run. -/
theorem sh_escalation_witness :
    (training Winfo 0 "m" Wid Wid WloadCam Wc2j Wdec Wshc Wgam Wfin Wpick0 1 0 []
      false).events.map IterEvent.iter = List.range' 1 1 ∧
    ∀ e ∈ (training Winfo 0 "m" Wid Wid WloadCam Wc2j Wdec Wshc Wgam Wfin Wpick0 1 0
      [] false).events, (e.shUp = true ↔ e.iter % 1000 = 0) :=
  sh_escalation_iff_multiple_of_1000 Winfo 0 "m" Wid Wid WloadCam Wc2j Wdec Wshc Wgam
    Wfin Wpick0 1 [] _ rfl (fun j h1 h2 => rfl)

/-- **C5 counterexample**: a 2-view training set, horizon 4, with draws so
that the first pass pops the views in the order `8, 7` and the second pass in
the order `7, 8`.  The window of 2 consecutive steps starting at step 2
samples view `7` twice (and view `8` not at all), so it is false that *any* N
consecutive steps sample every view exactly once; only windows aligned with
pass boundaries do. -/
theorem window_each_once_counterexample :
    ¬ windowEachOnce
      ((training Winfo2 0 "m" Wid Wid WloadCam Wc2j Wdec Wshc Wgam Wfin Wpick5 4 0 []
          false).events.map IterEvent.cam)
      ((buildScene Winfo2 "m" none 0 true Wid Wid [1] WloadCam Wc2j
        none).getTrainCameras 1) := by
  intro hw
  exact absurd
    (hw 1 (by decide) { light_phi := 7, light_theta := 7, original_image := 7 }
      (by decide))
    (by decide)

/-- **C5 amended**: the view-sampling stack is refilled with a fresh copy of
the full train camera sequence only when empty and one camera is popped per
step, so over each *aligned* pass of N consecutive steps (N the training-set
size, passes starting at steps `m * N + 1`), the popped cameras are a
permutation of the training set — every training view is sampled exactly once
per pass, and no camera repeats within a pass.  Windows not aligned with pass
boundaries may contain repeats (see the counterexample). -/
theorem aligned_pass_each_view_once
    {V P L S Img Img2 J G : Type} [Inhabited S] [Inhabited Img]
    [DecidableEq S] [DecidableEq Img]
    (info : SceneInfo V P L) (g : G) (mp : String)
    (σt σs : List V → List V) (loadCam : ℚ → V → Camera S Img)
    (c2j : Nat → V → J) (decoder : Nat × Nat → Fin 3 → Fin 81 → ℚ)
    (shc : S × S → Fin 81 → ℚ) (gammaFn : (Fin 3 → Nat → Nat → ℚ) → Img2)
    (loss : Nat → LossVal) (pick : Nat → Nat)
    (T m : Nat) (sIts : List Nat)
    (r : TrainRun S Img Img2)
    (hr : r = training info g mp σt σs loadCam c2j decoder shc gammaFn loss pick T 0
      sIts false)
    (hne : (buildScene info mp none 0 true σt σs [1] loadCam c2j
      none).getTrainCameras 1 ≠ [])
    (hnd : ∀ j, 1 ≤ j → j ≤ T → (loss j).divergent = false)
    (hm : (m + 1) * ((buildScene info mp none 0 true σt σs [1] loadCam c2j
      none).getTrainCameras 1).length ≤ T) :
    List.Perm
      (((r.events.map IterEvent.cam).drop
          (m * ((buildScene info mp none 0 true σt σs [1] loadCam c2j
            none).getTrainCameras 1).length)).take
        ((buildScene info mp none 0 true σt σs [1] loadCam c2j
          none).getTrainCameras 1).length)
      ((buildScene info mp none 0 true σt σs [1] loadCam c2j
        none).getTrainCameras 1) ∧
    (((buildScene info mp none 0 true σt σs [1] loadCam c2j
        none).getTrainCameras 1).Nodup →
      ∀ c ∈ (buildScene info mp none 0 true σt σs [1] loadCam c2j
        none).getTrainCameras 1,
        (((r.events.map IterEvent.cam).drop
            (m * ((buildScene info mp none 0 true σt σs [1] loadCam c2j
              none).getTrainCameras 1).length)).take
          ((buildScene info mp none 0 true σt σs [1] loadCam c2j
            none).getTrainCameras 1).length).count c = 1) := by
  subst hr
  have hev : (training info g mp σt σs loadCam c2j decoder shc gammaFn loss pick T 0
      sIts false).events =
        runIters ((buildScene info mp none 0 true σt σs [1] loadCam c2j
          none).getTrainCameras 1) loss pick T (T - 0) (0 + 1) [] := rfl
  have hm2 : (m + 1) * ((buildScene info mp none 0 true σt σs [1] loadCam c2j
      none).getTrainCameras 1).length ≤ T - 0 := by
    rwa [Nat.sub_zero]
  have hperm := runIters_chunk
    ((buildScene info mp none 0 true σt σs [1] loadCam c2j none).getTrainCameras 1)
    loss pick T hne m (T - 0) (0 + 1)
    (fun j h1 h2 => hnd j h1 (by omega)) hm2
  rw [hev]
  refine ⟨hperm, fun hnodup c hc => ?_⟩
  rw [hperm.count_eq c]
  exact List.count_eq_one_of_mem hnodup hc

/-- **C5 witness**: the aligned-pass theorem at a concrete 2-view, horizon-2
run, first pass. -/
theorem aligned_pass_witness :
    List.Perm
      ((((training Winfo2 0 "m" Wid Wid WloadCam Wc2j Wdec Wshc Wgam Wfin Wpick0 2 0
          [] false).events.map IterEvent.cam).drop
          (0 * ((buildScene Winfo2 "m" none 0 true Wid Wid [1] WloadCam Wc2j
            none).getTrainCameras 1).length)).take
        ((buildScene Winfo2 "m" none 0 true Wid Wid [1] WloadCam Wc2j
          none).getTrainCameras 1).length)
      ((buildScene Winfo2 "m" none 0 true Wid Wid [1] WloadCam Wc2j
        none).getTrainCameras 1) :=
  (aligned_pass_each_view_once Winfo2 0 "m" Wid Wid WloadCam Wc2j Wdec Wshc Wgam Wfin
    Wpick0 2 0 [] _ rfl (by decide) (fun j h1 h2 => rfl) (by decide)).1

end RTNLT
